import Mathlib

/-!
Verification of the hospital-allocation subsystem of DurhamARC/JUNE
(`june/groups/hospital.py`), shallowly embedded in Lean 4.

Conventions of the embedding:
- Python `int` becomes `Int`; list lengths are `Nat` and are cast where compared.
- Latitude/longitude pairs become `ℚ × ℚ`; the great-circle (haversine) metric
  of the BallTree is transcendental and therefore abstracted as an explicit
  metric parameter `dist : ℚ × ℚ → ℚ × ℚ → ℚ`; every theorem quantifies over
  it, so each holds in particular for the haversine metric on the
  radian-converted coordinates used by the source.
- Raising an exception becomes returning `Except.error`; the Python code
  raises before mutating any state, which the pure embedding reflects by
  returning only the error value.
-/

namespace JUNE

/-- Symptom severity tags of the simulation, in the order of
`index_to_maximum_symptoms_tag` (`health_index.py`, an `IntEnum` 0..7). -/
inductive SymptomTag where
  | asymptomatic
  | mild
  | severe
  | hospitalised
  | intensive_care
  | dead_home
  | dead_hospital
  | dead_icu
deriving DecidableEq, Repr

/-- A person, reduced to the fields the hospital module reads: an identity
and the severity classification `person.infection.tag`. -/
structure Person where
  id : Nat
  tag : SymptomTag
deriving DecidableEq, Repr

/-- `Hospital.SubgroupType` is an `IntEnum`; callers may in principle pass any
integer for a subgroup tag, so tags are embedded as `Int` with the three
named values of the enum. -/
def SubgroupType.workers : Int := 0

def SubgroupType.patients : Int := 1

def SubgroupType.icu_patients : Int := 2

/-- A hospital: static capacity and identity fields from `Hospital.__init__`,
plus the three mutable occupancy subgroups of the underlying `Group`
(`workers`, `patients`, `icu_patients`), each a list of person references.
The `Group` base class is not under `src/`; its occupancy state is modelled
from the spec (three disjoint subgroups, each a multiset of person
references, empty at construction). -/
structure Hospital where
  n_beds : Int
  n_icu_beds : Int
  area : Option String
  coordinates : Option (ℚ × ℚ)
  trust_code : Option String
  workers : List Person
  patients : List Person
  icu_patients : List Person
deriving DecidableEq, Repr

/-- `Hospital.__init__`: stores the given attributes; the subgroups of the
freshly constructed group are empty. No validation is performed on the
capacities. -/
def Hospital.init (n_beds n_icu_beds : Int) (area : Option String)
    (coordinates : Option (ℚ × ℚ)) (trust_code : Option String) : Hospital :=
  { n_beds := n_beds
    n_icu_beds := n_icu_beds
    area := area
    coordinates := coordinates
    trust_code := trust_code
    workers := []
    patients := []
    icu_patients := [] }

/-- `Hospital.full`: all regular beds are being used,
`self[SubgroupType.patients].size >= self.n_beds`. -/
def Hospital.full (h : Hospital) : Bool :=
  decide (h.n_beds ≤ (h.patients.length : Int))

/-- `Hospital.full_ICU`: all ICU beds are being used,
`self[SubgroupType.icu_patients].size >= self.n_icu_beds`. -/
def Hospital.full_ICU (h : Hospital) : Bool :=
  decide (h.n_icu_beds ≤ (h.icu_patients.length : Int))

/-- The inherited `Group.add(person, activity, subgroup_type)` (the `Group`
base class is not under `src/`). Modelled from the spec: inserts the person
into the named subgroup; the activity string under which the person is
registered is returned alongside the new state so that it can be observed. -/
def Group.addTo (h : Hospital) (p : Person) (activity : String)
    (subgroup_type : Int) : Hospital × String :=
  if subgroup_type = SubgroupType.icu_patients then
    ({ h with icu_patients := h.icu_patients ++ [p] }, activity)
  else if subgroup_type = SubgroupType.patients then
    ({ h with patients := h.patients ++ [p] }, activity)
  else
    ({ h with workers := h.workers ++ [p] }, activity)

/-- `Hospital.add`: a patients/icu_patients tag admits under activity
`"medical_facility"` into that subgroup; any other tag admits under
`"primary_activity"` into the workers subgroup. -/
def Hospital.add (h : Hospital) (p : Person) (subgroup_type : Int) :
    Hospital × String :=
  if subgroup_type = SubgroupType.patients ∨
      subgroup_type = SubgroupType.icu_patients then
    Group.addTo h p "medical_facility" subgroup_type
  else
    Group.addTo h p "primary_activity" SubgroupType.workers

/-- `Hospital.add_as_patient`: routes by the person's severity tag;
`intensive_care` goes to the ICU subgroup, `hospitalised` to the regular
patients subgroup, anything else raises an `AssertionError` (before any
mutation has happened). -/
def Hospital.add_as_patient (h : Hospital) (p : Person) :
    Except String Hospital :=
  if p.tag = SymptomTag.intensive_care then
    Except.ok (h.add p SubgroupType.icu_patients).1
  else if p.tag = SymptomTag.hospitalised then
    Except.ok (h.add p SubgroupType.patients).1
  else
    Except.error "ERROR: This person shouldn\x27t be trying to get to a hospital"

/-- Insert a (distance, index) pair into a list sorted by non-decreasing
distance, after all entries with an equal or smaller key (so the sort below
is stable, matching `sort_results=True` with index-order tie-breaking). -/
def insertByDist (x : ℚ × Nat) : List (ℚ × Nat) → List (ℚ × Nat)
  | [] => [x]
  | y :: ys => if y.1 ≤ x.1 then y :: insertByDist x ys else x :: y :: ys

/-- Sort (distance, index) pairs by non-decreasing distance. -/
def sortByDist : List (ℚ × Nat) → List (ℚ × Nat)
  | [] => []
  | x :: xs => insertByDist x (sortByDist xs)

/-- The `sklearn.neighbors.BallTree` over the hospital coordinates.
Modelled from the spec (§4.2 Geo-Index): it stores the ordered coordinate
list and the great-circle metric; a query returns the k nearest indices
together with their distances, sorted ascending by distance, ties broken by
index order. The haversine metric on radian-converted coordinates is kept
abstract as the `metric` field (see the header note). -/
structure BallTree where
  data : List (ℚ × ℚ)
  metric : ℚ × ℚ → ℚ × ℚ → ℚ

/-- The (distance, index) pair for every stored point of the tree, in index
order. -/
def BallTree.pointsWithIdx (t : BallTree) (p : ℚ × ℚ) : List (ℚ × Nat) :=
  (List.range t.data.length).map (fun i => (t.metric p (t.data.getD i (0, 0)), i))

/-- `BallTree.query(point, k, sort_results=True)`: distances from the query
point to every stored point, sorted ascending, first k taken; each returned
pair is (distance, index into `data`). The source always calls this with
`k ≤ data.length` (it clamps first), as sklearn requires. -/
def BallTree.query (t : BallTree) (p : ℚ × ℚ) (k : Nat) : List (ℚ × Nat) :=
  (sortByDist (t.pointsWithIdx p)).take k

/-- The collection state built by `Hospitals.__init__`: the ordered member
list, the box-mode flag, the configured neighbour count (`None` in box
mode), and the optional spatial index. -/
structure Hospitals where
  members : List Hospital
  box_mode : Bool
  neighbour_hospitals : Option Int
  hospital_trees : Option BallTree

/-- `Hospitals.init_trees`: builds the BallTree over the hospital
coordinates (the source converts to radians and fixes the haversine metric;
here the metric over the converted points is the abstract parameter). -/
def Hospitals.init_trees (hospital_coordinates : List (ℚ × ℚ))
    (dist : ℚ × ℚ → ℚ × ℚ → ℚ) : BallTree :=
  { data := hospital_coordinates, metric := dist }

/-- The coordinate list `[hospital.coordinates for hospital in hospitals]`.
Extraction assumes every member has coordinates, as the source does (it
would fail in `np.deg2rad` otherwise). -/
def hospitalCoords (hospitals : List Hospital) : List (ℚ × ℚ) :=
  hospitals.map (fun h => h.coordinates.getD (0, 0))

/-- `Hospitals.__init__`: stores the members, box-mode flag and neighbour
count, and builds the spatial index exactly when `ball_tree` is set and the
member list is non-empty. -/
def Hospitals.init (hospitals : List Hospital) (neighbour_hospitals : Option Int)
    (box_mode : Bool) (ball_tree : Bool) (dist : ℚ × ℚ → ℚ × ℚ → ℚ) :
    Hospitals :=
  { members := hospitals
    box_mode := box_mode
    neighbour_hospitals := neighbour_hospitals
    hospital_trees :=
      if ball_tree ∧ hospitals ≠ [] then
        some (Hospitals.init_trees (hospitalCoords hospitals) dist)
      else none }

/-- `Hospitals.for_box_mode`: two hospitals with capacities (10, 2) and
(5000, 5000), no coordinates, `neighbour_hospitals=None`, `box_mode=True`,
`ball_tree=False`. The metric argument is irrelevant (no tree is built). -/
def Hospitals.for_box_mode : Hospitals :=
  Hospitals.init
    [Hospital.init 10 2 none none none, Hospital.init 5000 5000 none none none]
    none true false (fun _ _ => 0)

/-- The error raised when a geographic query is attempted on a collection
whose spatial index was never built (`self.hospital_trees` unset): Python
raises `AttributeError`. -/
def missingTreeError : String :=
  "AttributeError: Hospitals object has no attribute hospital_trees"

/-- The default used to embed Python list indexing: all theorems below prove
indices in range, so this value is never produced by a verified call. -/
def defaultHospital : Hospital := Hospital.init 0 0 none none none

/-- `Hospitals.get_closest_hospitals_idx(coordinates, k)`: clamps k to
min(k, N) and returns the indices of the k closest hospitals sorted by
ascending distance; fails when no spatial index exists. -/
def Hospitals.get_closest_hospitals_idx (hs : Hospitals) (coordinates : ℚ × ℚ)
    (k : Nat) : Except String (List Nat) :=
  match hs.hospital_trees with
  | none => Except.error missingTreeError
  | some t =>
    Except.ok ((t.query coordinates (min k t.data.length)).map Prod.snd)

/-- `Hospitals.get_closest_hospitals(coordinates, k)`: same query, but the
returned index positions are resolved through `self.members[index]`. -/
def Hospitals.get_closest_hospitals (hs : Hospitals) (coordinates : ℚ × ℚ)
    (k : Nat) : Except String (List Hospital) :=
  match hs.hospital_trees with
  | none => Except.error missingTreeError
  | some t =>
    Except.ok ((t.query coordinates (min k t.data.length)).map
      (fun dn => hs.members.getD dn.2 defaultHospital))

/-- Distance from a query point to a hospital, through the hospital's own
coordinates — the key along which `get_closest_hospitals` results are
sorted. -/
def hospitalDist (dist : ℚ × ℚ → ℚ × ℚ → ℚ) (p : ℚ × ℚ) (h : Hospital) : ℚ :=
  dist p (h.coordinates.getD (0, 0))

/-- The capacity threshold relevant to a severity level: `full_ICU` for an
ICU-level admission, `full` for a ward-level one. -/
def relevantFull (needsIcu : Bool) (h : Hospital) : Bool :=
  if needsIcu then h.full_ICU else h.full

/-- First index, in candidate order, of a hospital whose relevant capacity
threshold is not yet reached. -/
def firstWithSpace (needsIcu : Bool) : List Hospital → Option Nat
  | [] => none
  | h :: rest =>
    if relevantFull needsIcu h = false then some 0
    else (firstWithSpace needsIcu rest).map (fun i => i + 1)

/-- Modelled from the spec: the admission routine that realizes the §4.3
allocation policy is not part of `hospital.py` (only its contract is recorded
in the `Hospitals.__init__` docstring: check the closest candidates in
order, allocate to the first with space available, and if none of them has
beds available pick one of them at random and let it overflow). Given the k
nearest candidates in ascending-distance order, the severity level, and the
random draw `r` (uniform once reduced modulo the candidate count), this
returns the position of the chosen candidate. -/
def allocateHospital (candidates : List Hospital) (needsIcu : Bool)
    (r : Nat) : Option Nat :=
  match firstWithSpace needsIcu candidates with
  | some i => some i
  | none =>
    if candidates.length = 0 then none else some (r % candidates.length)

/-! ### Properties of the sorting routine underlying the spatial query -/

theorem perm_insertByDist (x : ℚ × Nat) (l : List (ℚ × Nat)) :
    List.Perm (insertByDist x l) (x :: l) := by
  induction l with
  | nil => simp [insertByDist]
  | cons y ys ih =>
    rw [insertByDist]
    by_cases hle : y.1 ≤ x.1
    · rw [if_pos hle]
      exact (ih.cons y).trans (List.Perm.swap x y ys)
    · rw [if_neg hle]

theorem sorted_insertByDist (x : ℚ × Nat) (l : List (ℚ × Nat))
    (hl : l.Pairwise (fun a b => a.1 ≤ b.1)) :
    (insertByDist x l).Pairwise (fun a b => a.1 ≤ b.1) := by
  induction l with
  | nil => simp [insertByDist]
  | cons y ys ih =>
    rw [List.pairwise_cons] at hl
    obtain ⟨hy, hys⟩ := hl
    rw [insertByDist]
    by_cases hle : y.1 ≤ x.1
    · rw [if_pos hle, List.pairwise_cons]
      refine ⟨?_, ih hys⟩
      intro z hz
      rcases List.mem_cons.mp ((perm_insertByDist x ys).mem_iff.mp hz) with hz | hz
      · rw [hz]; exact hle
      · exact hy z hz
    · rw [if_neg hle, List.pairwise_cons]
      refine ⟨?_, List.pairwise_cons.mpr ⟨hy, hys⟩⟩
      intro z hz
      rcases List.mem_cons.mp hz with hz | hz
      · rw [hz]; exact le_of_not_le hle
      · exact le_trans (le_of_not_le hle) (hy z hz)

theorem perm_sortByDist (l : List (ℚ × Nat)) : List.Perm (sortByDist l) l := by
  induction l with
  | nil => simp [sortByDist]
  | cons x xs ih =>
    rw [sortByDist]
    exact (perm_insertByDist x (sortByDist xs)).trans (ih.cons x)

theorem sorted_sortByDist (l : List (ℚ × Nat)) :
    (sortByDist l).Pairwise (fun a b => a.1 ≤ b.1) := by
  induction l with
  | nil => simp [sortByDist]
  | cons x xs ih =>
    rw [sortByDist]
    exact sorted_insertByDist x (sortByDist xs) ih

/-! ### Characterization of `BallTree.query` -/

theorem length_pointsWithIdx (t : BallTree) (p : ℚ × ℚ) :
    (t.pointsWithIdx p).length = t.data.length := by
  rw [BallTree.pointsWithIdx, List.length_map, List.length_range]

theorem query_length (t : BallTree) (p : ℚ × ℚ) (k : Nat) :
    (t.query p k).length = min k t.data.length := by
  rw [BallTree.query, List.length_take, (perm_sortByDist _).length_eq,
    length_pointsWithIdx]

theorem query_sorted (t : BallTree) (p : ℚ × ℚ) (k : Nat) :
    (t.query p k).Pairwise (fun a b => a.1 ≤ b.1) :=
  List.Pairwise.sublist (List.take_sublist _ _) (sorted_sortByDist _)

theorem query_mem (t : BallTree) (p : ℚ × ℚ) (k : Nat) {x : ℚ × Nat}
    (hx : x ∈ t.query p k) :
    x.2 < t.data.length ∧ x.1 = t.metric p (t.data.getD x.2 (0, 0)) := by
  have hx' := (perm_sortByDist _).mem_iff.mp (List.mem_of_mem_take hx)
  rw [BallTree.pointsWithIdx] at hx'
  rcases List.mem_map.mp hx' with ⟨i, hi, hfi⟩
  rw [List.mem_range] at hi
  subst hfi
  exact ⟨hi, rfl⟩

theorem query_all (t : BallTree) (p : ℚ × ℚ) {k : Nat}
    (hk : t.data.length ≤ k) :
    List.Perm (t.query p k) (t.pointsWithIdx p) := by
  rw [BallTree.query, List.take_of_length_le]
  · exact perm_sortByDist _
  · rw [(perm_sortByDist _).length_eq, length_pointsWithIdx]
    exact hk

/-! ### Helpers about list indexing -/

theorem getD_mem {α : Type} (l : List α) (i : Nat) (hi : i < l.length) (d : α) :
    l.getD i d ∈ l := by
  rw [List.getD_eq_getElem _ _ hi]
  exact List.getElem_mem _

theorem map_getD_range {α : Type} (l : List α) (d : α) :
    (List.range l.length).map (fun i => l.getD i d) = l := by
  induction l with
  | nil => simp
  | cons a tl ih =>
    rw [List.length_cons, List.range_succ_eq_map, List.map_cons, List.map_map]
    simp only [Function.comp_def, List.getD_cons_zero, List.getD_cons_succ]
    rw [ih]

theorem coords_length (hospitals : List Hospital) :
    (hospitalCoords hospitals).length = hospitals.length :=
  List.length_map _ _

theorem coords_getD (hospitals : List Hospital) (i : Nat)
    (hi : i < hospitals.length) :
    (hospitalCoords hospitals).getD i (0, 0)
      = (hospitals.getD i defaultHospital).coordinates.getD (0, 0) := by
  unfold hospitalCoords
  rw [List.getD_eq_getElem _ _ (by simpa using hi), List.getElem_map,
    List.getD_eq_getElem _ _ hi]

/-! ### The spatial index built by `Hospitals.__init__` -/

theorem init_trees_data (c : List (ℚ × ℚ)) (dist : ℚ × ℚ → ℚ × ℚ → ℚ) :
    (Hospitals.init_trees c dist).data = c := rfl

theorem init_trees_eq (hospitals : List Hospital) (nh : Option Int) (bm : Bool)
    (dist : ℚ × ℚ → ℚ × ℚ → ℚ) (hne : hospitals ≠ []) :
    (Hospitals.init hospitals nh bm true dist).hospital_trees =
      some (Hospitals.init_trees (hospitalCoords hospitals) dist) := by
  rw [Hospitals.init, if_pos ⟨rfl, hne⟩]

theorem trees_none_of_no_ball_tree (hospitals : List Hospital) (nh : Option Int)
    (bm : Bool) (dist : ℚ × ℚ → ℚ × ℚ → ℚ) :
    (Hospitals.init hospitals nh bm false dist).hospital_trees = none := by
  simp [Hospitals.init]

theorem trees_none_of_nil (nh : Option Int) (bm bt : Bool)
    (dist : ℚ × ℚ → ℚ × ℚ → ℚ) :
    (Hospitals.init [] nh bm bt dist).hospital_trees = none := by
  simp [Hospitals.init]

theorem query_error_of_no_tree (hs : Hospitals)
    (h : hs.hospital_trees = none) (p : ℚ × ℚ) (k : Nat) :
    hs.get_closest_hospitals p k = Except.error missingTreeError ∧
      hs.get_closest_hospitals_idx p k = Except.error missingTreeError := by
  constructor
  · rw [Hospitals.get_closest_hospitals, h]
  · rw [Hospitals.get_closest_hospitals_idx, h]

theorem get_closest_eq (hospitals : List Hospital) (nh : Option Int) (bm : Bool)
    (dist : ℚ × ℚ → ℚ × ℚ → ℚ) (p : ℚ × ℚ) (k : Nat) (hne : hospitals ≠ []) :
    (Hospitals.init hospitals nh bm true dist).get_closest_hospitals p k
      = Except.ok
        (((Hospitals.init_trees (hospitalCoords hospitals) dist).query p
            (min k (hospitalCoords hospitals).length)).map
          (fun dn => hospitals.getD dn.2 defaultHospital)) := by
  unfold Hospitals.get_closest_hospitals
  rw [init_trees_eq hospitals nh bm dist hne]
  rfl

theorem get_closest_idx_eq (hospitals : List Hospital) (nh : Option Int)
    (bm : Bool) (dist : ℚ × ℚ → ℚ × ℚ → ℚ) (p : ℚ × ℚ) (k : Nat)
    (hne : hospitals ≠ []) :
    (Hospitals.init hospitals nh bm true dist).get_closest_hospitals_idx p k
      = Except.ok
        (((Hospitals.init_trees (hospitalCoords hospitals) dist).query p
            (min k (hospitalCoords hospitals).length)).map Prod.snd) := by
  unfold Hospitals.get_closest_hospitals_idx
  rw [init_trees_eq hospitals nh bm dist hne]
  rfl

theorem query_key (hospitals : List Hospital) (dist : ℚ × ℚ → ℚ × ℚ → ℚ)
    (p : ℚ × ℚ) (k : Nat) {x : ℚ × Nat}
    (hx : x ∈ (Hospitals.init_trees (hospitalCoords hospitals) dist).query p k) :
    x.2 < hospitals.length ∧
      x.1 = hospitalDist dist p (hospitals.getD x.2 defaultHospital) := by
  obtain ⟨h1, h2⟩ := query_mem _ p k hx
  rw [init_trees_data, coords_length] at h1
  rw [init_trees_data] at h2
  refine ⟨h1, ?_⟩
  rw [h2, coords_getD hospitals x.2 h1]
  rfl

/-! ### Properties of the first-with-space search of the allocator -/

theorem firstWithSpace_some (b : Bool) :
    ∀ (l : List Hospital) (i : Nat), firstWithSpace b l = some i →
      i < l.length ∧ relevantFull b (l.getD i defaultHospital) = false ∧
        ∀ m, m < i → relevantFull b (l.getD m defaultHospital) = true
  | [], i, h => by rw [firstWithSpace] at h; exact absurd h (by simp)
  | x :: rest, i, h => by
    by_cases hx : relevantFull b x = false
    · rw [firstWithSpace, if_pos hx] at h
      obtain rfl : i = 0 := (Option.some.inj h).symm
      exact ⟨Nat.succ_pos _, hx, fun m hm => absurd hm (Nat.not_lt_zero m)⟩
    · rw [firstWithSpace, if_neg hx] at h
      have hx' : relevantFull b x = true := by
        revert hx; cases relevantFull b x <;> simp
      rcases Option.map_eq_some'.mp h with ⟨j, hj, rfl⟩
      obtain ⟨h1, h2, h3⟩ := firstWithSpace_some b rest j hj
      refine ⟨by simpa using Nat.succ_lt_succ h1, by simpa using h2, ?_⟩
      intro m hm
      cases m with
      | zero => simpa using hx'
      | succ m' => simpa using h3 m' (Nat.lt_of_succ_lt_succ hm)

theorem firstWithSpace_none (b : Bool) :
    ∀ (l : List Hospital), firstWithSpace b l = none →
      ∀ j, j < l.length → relevantFull b (l.getD j defaultHospital) = true
  | [], _, j, hj => absurd hj (by simp)
  | x :: rest, h, j, hj => by
    by_cases hx : relevantFull b x = false
    · rw [firstWithSpace, if_pos hx] at h
      exact absurd h (by simp)
    · rw [firstWithSpace, if_neg hx] at h
      have hx' : relevantFull b x = true := by
        revert hx; cases relevantFull b x <;> simp
      have hrest : firstWithSpace b rest = none := by
        cases hfw : firstWithSpace b rest with
        | none => rfl
        | some v => rw [hfw] at h; exact absurd h (by simp)
      cases j with
      | zero => simpa using hx'
      | succ j' =>
        simpa using firstWithSpace_none b rest hrest j' (by simpa using hj)

/-! ### Claim theorems -/

/-- Claim C2: `add_as_patient` places a person tagged `intensive_care` in the
`icu_patients` subgroup and a person tagged `hospitalised` in the `patients`
subgroup, each time leaving every other subgroup unchanged (the `Except.ok`
state updates exactly one subgroup field); for any other severity tag the
call fails with the precondition-violation `AssertionError`, and since the
exception is raised before any mutation, no subgroup changes. -/
theorem claim2_add_as_patient_routes (h : Hospital) (p : Person) :
    (p.tag = SymptomTag.intensive_care →
      h.add_as_patient p
        = Except.ok { h with icu_patients := h.icu_patients ++ [p] }) ∧
    (p.tag = SymptomTag.hospitalised →
      h.add_as_patient p
        = Except.ok { h with patients := h.patients ++ [p] }) ∧
    (p.tag ≠ SymptomTag.intensive_care → p.tag ≠ SymptomTag.hospitalised →
      h.add_as_patient p = Except.error
        "ERROR: This person shouldn\x27t be trying to get to a hospital") := by
  refine ⟨?_, ?_, ?_⟩
  · intro ht
    unfold Hospital.add_as_patient
    rw [if_pos ht]
    rfl
  · intro ht
    have hni : ¬ p.tag = SymptomTag.intensive_care := by
      rw [ht]
      exact fun hcon => SymptomTag.noConfusion hcon
    unfold Hospital.add_as_patient
    rw [if_neg hni, if_pos ht]
    rfl
  · intro h1 h2
    unfold Hospital.add_as_patient
    rw [if_neg h1, if_neg h2]

/-- Witness for C2: a three-person concrete run exercising the ICU route,
the ward route, and the failing route. -/
theorem claim2_witness :
    ((⟨1, SymptomTag.intensive_care⟩ : Person).tag = SymptomTag.intensive_care ∧
      defaultHospital.add_as_patient ⟨1, SymptomTag.intensive_care⟩
        = Except.ok { defaultHospital with
            icu_patients :=
              defaultHospital.icu_patients ++ [⟨1, SymptomTag.intensive_care⟩] }) ∧
    ((⟨2, SymptomTag.hospitalised⟩ : Person).tag = SymptomTag.hospitalised ∧
      defaultHospital.add_as_patient ⟨2, SymptomTag.hospitalised⟩
        = Except.ok { defaultHospital with
            patients :=
              defaultHospital.patients ++ [⟨2, SymptomTag.hospitalised⟩] }) ∧
    ((⟨3, SymptomTag.mild⟩ : Person).tag ≠ SymptomTag.intensive_care ∧
      (⟨3, SymptomTag.mild⟩ : Person).tag ≠ SymptomTag.hospitalised ∧
      defaultHospital.add_as_patient ⟨3, SymptomTag.mild⟩
        = Except.error
            "ERROR: This person shouldn\x27t be trying to get to a hospital") :=
  ⟨⟨rfl, (claim2_add_as_patient_routes defaultHospital _).1 rfl⟩,
   ⟨rfl, (claim2_add_as_patient_routes defaultHospital _).2.1 rfl⟩,
   ⟨by decide, by decide,
     (claim2_add_as_patient_routes defaultHospital _).2.2 (by decide) (by decide)⟩⟩

/-- Claim C3: `full` holds exactly when the patients subgroup has reached
`n_beds`, and `full_ICU` exactly when the ICU subgroup has reached
`n_icu_beds`; after an admission through `add` the predicate is evaluated at
the incremented occupancy, so an admission crossing the threshold flips the
predicate immediately (the last two equivalences evaluate the predicates on
the post-admission state). -/
theorem claim3_full_thresholds (h : Hospital) (p : Person) :
    (h.full = true ↔ h.n_beds ≤ (h.patients.length : Int)) ∧
    (h.full_ICU = true ↔ h.n_icu_beds ≤ (h.icu_patients.length : Int)) ∧
    ((h.add p SubgroupType.patients).1.full = true ↔
      h.n_beds ≤ (h.patients.length : Int) + 1) ∧
    ((h.add p SubgroupType.icu_patients).1.full_ICU = true ↔
      h.n_icu_beds ≤ (h.icu_patients.length : Int) + 1) := by
  refine ⟨by simp [Hospital.full], by simp [Hospital.full_ICU], ?_, ?_⟩
  · rw [show (h.add p SubgroupType.patients).1
        = { h with patients := h.patients ++ [p] } from rfl]
    show decide (h.n_beds ≤ ((h.patients ++ [p]).length : Int)) = true ↔ _
    rw [decide_eq_true_eq, List.length_append, List.length_singleton]
    push_cast
    omega
  · rw [show (h.add p SubgroupType.icu_patients).1
        = { h with icu_patients := h.icu_patients ++ [p] } from rfl]
    show decide (h.n_icu_beds ≤ ((h.icu_patients ++ [p]).length : Int)) = true ↔ _
    rw [decide_eq_true_eq, List.length_append, List.length_singleton]
    push_cast
    omega

/-- Claim C5: box mode yields exactly two hospitals, the first with 10
regular and 2 ICU beds, the second with 5000 and 5000, both without
coordinates; no spatial index is built and `neighbour_hospitals` is unset. -/
theorem claim5_box_mode :
    Hospitals.for_box_mode.members =
      [Hospital.init 10 2 none none none,
       Hospital.init 5000 5000 none none none] ∧
    Hospitals.for_box_mode.members.length = 2 ∧
    (Hospitals.for_box_mode.members.getD 0 defaultHospital).n_beds = 10 ∧
    (Hospitals.for_box_mode.members.getD 0 defaultHospital).n_icu_beds = 2 ∧
    (Hospitals.for_box_mode.members.getD 1 defaultHospital).n_beds = 5000 ∧
    (Hospitals.for_box_mode.members.getD 1 defaultHospital).n_icu_beds = 5000 ∧
    (Hospitals.for_box_mode.members.getD 0 defaultHospital).coordinates = none ∧
    (Hospitals.for_box_mode.members.getD 1 defaultHospital).coordinates = none ∧
    Hospitals.for_box_mode.hospital_trees = none ∧
    Hospitals.for_box_mode.neighbour_hospitals = none :=
  ⟨rfl, rfl, rfl, rfl, rfl, rfl, rfl, rfl, rfl, rfl⟩

/-- Claim C7: `add` into the patients or ICU subgroup always succeeds (the
model is a total function, as the Python method raises nothing) and grows
that subgroup by exactly one; the equations hold for every hospital state,
in particular when `full` or `full_ICU` is already true, so the boundary
predicates never block an admission. -/
theorem claim7_add_never_blocked (h : Hospital) (p : Person) :
    (h.add p SubgroupType.patients).1.patients.length
        = h.patients.length + 1 ∧
      (h.add p SubgroupType.icu_patients).1.icu_patients.length
        = h.icu_patients.length + 1 := by
  constructor
  · rw [show (h.add p SubgroupType.patients).1
        = { h with patients := h.patients ++ [p] } from rfl]
    simp
  · rw [show (h.add p SubgroupType.icu_patients).1
        = { h with icu_patients := h.icu_patients ++ [p] } from rfl]
    simp

/-- Claim C8: with no spatial index — `ball_tree=False` at construction, an
empty member list, or box mode — both nearest-hospital queries fail
explicitly with the (AttributeError) failure, never returning an empty or
partial result. -/
theorem claim8_query_without_index_fails :
    (∀ (hospitals : List Hospital) (nh : Option Int) (bm : Bool)
        (dist : ℚ × ℚ → ℚ × ℚ → ℚ) (p : ℚ × ℚ) (k : Nat),
      (Hospitals.init hospitals nh bm false dist).get_closest_hospitals p k
          = Except.error missingTreeError ∧
        (Hospitals.init hospitals nh bm false dist).get_closest_hospitals_idx p k
          = Except.error missingTreeError) ∧
    (∀ (nh : Option Int) (bm bt : Bool) (dist : ℚ × ℚ → ℚ × ℚ → ℚ)
        (p : ℚ × ℚ) (k : Nat),
      (Hospitals.init [] nh bm bt dist).get_closest_hospitals p k
          = Except.error missingTreeError ∧
        (Hospitals.init [] nh bm bt dist).get_closest_hospitals_idx p k
          = Except.error missingTreeError) ∧
    (∀ (p : ℚ × ℚ) (k : Nat),
      Hospitals.for_box_mode.get_closest_hospitals p k
          = Except.error missingTreeError ∧
        Hospitals.for_box_mode.get_closest_hospitals_idx p k
          = Except.error missingTreeError) := by
  refine ⟨?_, ?_, ?_⟩
  · intro hospitals nh bm dist p k
    exact query_error_of_no_tree _
      (trees_none_of_no_ball_tree hospitals nh bm dist) p k
  · intro nh bm bt dist p k
    exact query_error_of_no_tree _ (trees_none_of_nil nh bm bt dist) p k
  · intro p k
    exact query_error_of_no_tree _
      (trees_none_of_no_ball_tree _ _ _ _) p k

/-- Counterexample to C9 as stated: `Hospital.__init__` performs no
validation of the capacities, so a hospital constructed with capacity -1
carries a negative `n_beds`, against "every Hospital has n_beds ≥ 0 ... for
all construction paths". -/
theorem claim9_counterexample :
    ¬ (0 ≤ (Hospital.init (-1) (-1) none none none).n_beds ∧
        0 ≤ (Hospital.init (-1) (-1) none none none).n_icu_beds) := by
  decide

/-- Claim C9 (amended): the constructor stores the given capacities
unchanged — so the constructed hospital's capacities are non-negative
exactly when the construction inputs are — and the box-mode construction
path always yields hospitals with non-negative capacities. -/
theorem claim9_constructor_capacities (nb ni : Int) (area : Option String)
    (coords : Option (ℚ × ℚ)) (tc : Option String) :
    ((Hospital.init nb ni area coords tc).n_beds = nb ∧
      (Hospital.init nb ni area coords tc).n_icu_beds = ni) ∧
    (∀ h ∈ Hospitals.for_box_mode.members,
      0 ≤ h.n_beds ∧ 0 ≤ h.n_icu_beds) := by
  refine ⟨⟨rfl, rfl⟩, ?_⟩
  intro h hm
  rw [show Hospitals.for_box_mode.members =
      [Hospital.init 10 2 none none none,
       Hospital.init 5000 5000 none none none] from rfl] at hm
  rcases List.mem_cons.mp hm with rfl | hm
  · exact ⟨by decide, by decide⟩
  · rcases List.mem_cons.mp hm with rfl | hm
    · exact ⟨by decide, by decide⟩
    · exact absurd hm (List.not_mem_nil h)

/-- Witness for C9 (amended), at the first box-mode hospital. -/
theorem claim9_witness :
    (Hospital.init 10 2 none none none ∈ Hospitals.for_box_mode.members) ∧
    (0 ≤ (Hospital.init 10 2 none none none).n_beds ∧
      0 ≤ (Hospital.init 10 2 none none none).n_icu_beds) :=
  ⟨by decide, (claim9_constructor_capacities 10 2 none none none).2 _ (by decide)⟩

/-- Claim C10: for any subgroup tag other than the patients and ICU tags —
the workers tag, but also every other integer value — `add` never fails: it
places the person in the workers subgroup (leaving the medical subgroups
unchanged) under activity "primary_activity". -/
theorem claim10_add_other_tags_go_to_workers (h : Hospital) (p : Person)
    (tag : Int) (h1 : tag ≠ SubgroupType.patients)
    (h2 : tag ≠ SubgroupType.icu_patients) :
    h.add p tag
      = ({ h with workers := h.workers ++ [p] }, "primary_activity") := by
  unfold Hospital.add
  rw [if_neg (by push_neg; exact ⟨h1, h2⟩)]
  rfl

/-- Witness for C10 at the out-of-enum tag 42. -/
theorem claim10_witness :
    ((42 : Int) ≠ SubgroupType.patients ∧
      (42 : Int) ≠ SubgroupType.icu_patients) ∧
    defaultHospital.add ⟨7, SymptomTag.mild⟩ 42
      = ({ defaultHospital with workers := [⟨7, SymptomTag.mild⟩] },
          "primary_activity") :=
  ⟨⟨by decide, by decide⟩,
    claim10_add_other_tags_go_to_workers defaultHospital ⟨7, SymptomTag.mild⟩ 42
      (by decide) (by decide)⟩

/-- Claim C1: on a collection with a spatial index over a non-empty member
list, `get_closest_hospitals(p, k)` with k ≥ 1 does not fail; it returns a
list of member hospitals of length min(k, N), sorted in non-decreasing
metric (haversine) distance from p, and when k ≥ N it returns all N members
(a permutation of the member list) sorted by distance. -/
theorem claim1_get_closest_hospitals_sorted (hospitals : List Hospital)
    (nh : Option Int) (bm : Bool) (dist : ℚ × ℚ → ℚ × ℚ → ℚ)
    (p : ℚ × ℚ) (k : Nat) (hne : hospitals ≠ []) (_hk : 1 ≤ k) :
    ∃ res : List Hospital,
      (Hospitals.init hospitals nh bm true dist).get_closest_hospitals p k
        = Except.ok res ∧
      res.length = min k hospitals.length ∧
      res.Pairwise
        (fun h1 h2 => hospitalDist dist p h1 ≤ hospitalDist dist p h2) ∧
      (∀ h ∈ res, h ∈ hospitals) ∧
      (hospitals.length ≤ k → List.Perm res hospitals) := by
  refine ⟨_, get_closest_eq hospitals nh bm dist p k hne, ?_, ?_, ?_, ?_⟩
  · rw [List.length_map, query_length, init_trees_data, coords_length]
    omega
  · rw [List.pairwise_map]
    refine List.Pairwise.imp_of_mem ?_ (query_sorted _ p _)
    intro a b ha hb hab
    obtain ⟨_, ha2⟩ := query_key hospitals dist p _ ha
    obtain ⟨_, hb2⟩ := query_key hospitals dist p _ hb
    show hospitalDist dist p (hospitals.getD a.2 defaultHospital)
      ≤ hospitalDist dist p (hospitals.getD b.2 defaultHospital)
    rw [← ha2, ← hb2]
    exact hab
  · intro h hmem
    rcases List.mem_map.mp hmem with ⟨x, hx, rfl⟩
    exact getD_mem hospitals x.2 (query_key hospitals dist p _ hx).1
      defaultHospital
  · intro hkn
    have hk' : (Hospitals.init_trees (hospitalCoords hospitals) dist).data.length
        ≤ min k (hospitalCoords hospitals).length := by
      rw [init_trees_data, coords_length]
      omega
    have hperm := (query_all _ p hk').map
      (fun dn => hospitals.getD dn.2 defaultHospital)
    have hpts : ((Hospitals.init_trees (hospitalCoords hospitals) dist).pointsWithIdx
          p).map (fun dn => hospitals.getD dn.2 defaultHospital)
        = hospitals := by
      unfold BallTree.pointsWithIdx
      rw [List.map_map, init_trees_data, coords_length]
      exact map_getD_range hospitals defaultHospital
    rw [hpts] at hperm
    exact hperm

/-- Witness for C1 at a concrete one-hospital collection. -/
theorem claim1_witness :
    (([defaultHospital] : List Hospital) ≠ [] ∧ 1 ≤ 1) ∧
    ∃ res : List Hospital,
      (Hospitals.init [defaultHospital] none false true
          (fun _ _ => 0)).get_closest_hospitals (0, 0) 1
        = Except.ok res ∧
      res.length = min 1 ([defaultHospital] : List Hospital).length ∧
      res.Pairwise (fun h1 h2 =>
        hospitalDist (fun _ _ => 0) (0, 0) h1
          ≤ hospitalDist (fun _ _ => 0) (0, 0) h2) ∧
      (∀ h ∈ res, h ∈ ([defaultHospital] : List Hospital)) ∧
      (([defaultHospital] : List Hospital).length ≤ 1 →
        List.Perm res [defaultHospital]) :=
  ⟨⟨by simp, by simp⟩,
    claim1_get_closest_hospitals_sorted [defaultHospital] none false
      (fun _ _ => 0) (0, 0) 1 (by simp) (by simp)⟩

/-- Claim C4: the allocation policy always places the person when the
candidate set (the k nearest hospitals, in ascending-distance order) is
non-empty, at a position inside the candidate set; when some candidate is
below its relevant threshold the chosen one is the first such (below
threshold, with every earlier candidate at/over threshold), and when every
candidate is at/over threshold it is the uniformly random pick r mod k among
the same candidates — so overflow never leaves the candidate set and never
leaves the person unplaced. -/
theorem claim4_allocation_policy (candidates : List Hospital)
    (needsIcu : Bool) (r : Nat) (hne : candidates ≠ []) :
    ∃ i, allocateHospital candidates needsIcu r = some i ∧
      i < candidates.length ∧
      ((∃ j, j < candidates.length ∧
          relevantFull needsIcu (candidates.getD j defaultHospital) = false) →
        (relevantFull needsIcu (candidates.getD i defaultHospital) = false ∧
          ∀ m, m < i →
            relevantFull needsIcu (candidates.getD m defaultHospital) = true)) ∧
      ((∀ j, j < candidates.length →
          relevantFull needsIcu (candidates.getD j defaultHospital) = true) →
        i = r % candidates.length) := by
  cases hfw : firstWithSpace needsIcu candidates with
  | some i =>
    obtain ⟨h1, h2, h3⟩ := firstWithSpace_some needsIcu candidates i hfw
    refine ⟨i, by simp [allocateHospital, hfw], h1, fun _ => ⟨h2, h3⟩, ?_⟩
    intro hall
    rw [hall i h1] at h2
    exact absurd h2 (by simp)
  | none =>
    have hlen : candidates.length ≠ 0 := by
      intro h0
      exact hne (List.length_eq_zero.mp h0)
    refine ⟨r % candidates.length, ?_,
      Nat.mod_lt r (Nat.pos_of_ne_zero hlen), ?_, fun _ => rfl⟩
    · simp only [allocateHospital, hfw]
      rw [if_neg hlen]
    · rintro ⟨j, hj, hjf⟩
      have := firstWithSpace_none needsIcu candidates hfw j hj
      rw [hjf] at this
      exact absurd this (by simp)

/-- Witness for C4: two hospitals with zero beds (both full), ward level,
random draw 5 — the person is still placed, at position 5 mod 2 = 1. -/
theorem claim4_witness :
    (([defaultHospital, defaultHospital] : List Hospital) ≠ []) ∧
    ∃ i, allocateHospital [defaultHospital, defaultHospital] false 5
        = some i ∧
      i < ([defaultHospital, defaultHospital] : List Hospital).length ∧
      ((∃ j, j < ([defaultHospital, defaultHospital] : List Hospital).length ∧
          relevantFull false
            (([defaultHospital, defaultHospital] : List Hospital).getD j
              defaultHospital) = false) →
        (relevantFull false
            (([defaultHospital, defaultHospital] : List Hospital).getD i
              defaultHospital) = false ∧
          ∀ m, m < i →
            relevantFull false
              (([defaultHospital, defaultHospital] : List Hospital).getD m
                defaultHospital) = true)) ∧
      ((∀ j, j < ([defaultHospital, defaultHospital] : List Hospital).length →
          relevantFull false
            (([defaultHospital, defaultHospital] : List Hospital).getD j
              defaultHospital) = true) →
        i = 5 % ([defaultHospital, defaultHospital] : List Hospital).length) :=
  ⟨by simp,
    claim4_allocation_policy [defaultHospital, defaultHospital] false 5
      (by simp)⟩

/-- Claim C6: on a collection with a spatial index, `get_closest_hospitals`
returns exactly the member hospitals at the index positions returned by
`get_closest_hospitals_idx`, in the same order, and every returned position
is a valid member index — the index positions map 1:1, in order, onto the
collection's members. -/
theorem claim6_idx_positions_match_members (hospitals : List Hospital)
    (nh : Option Int) (bm : Bool) (dist : ℚ × ℚ → ℚ × ℚ → ℚ)
    (p : ℚ × ℚ) (k : Nat) (hne : hospitals ≠ []) :
    ∃ idxs : List Nat,
      (Hospitals.init hospitals nh bm true dist).get_closest_hospitals_idx p k
        = Except.ok idxs ∧
      (∀ i ∈ idxs, i < hospitals.length) ∧
      (Hospitals.init hospitals nh bm true dist).get_closest_hospitals p k
        = Except.ok (idxs.map (fun i => hospitals.getD i defaultHospital)) := by
  refine ⟨_, get_closest_idx_eq hospitals nh bm dist p k hne, ?_, ?_⟩
  · intro i hi
    rcases List.mem_map.mp hi with ⟨x, hx, rfl⟩
    exact (query_key hospitals dist p _ hx).1
  · rw [get_closest_eq hospitals nh bm dist p k hne, List.map_map]
    rfl

/-- Witness for C6 at a concrete one-hospital collection. -/
theorem claim6_witness :
    (([defaultHospital] : List Hospital) ≠ []) ∧
    ∃ idxs : List Nat,
      (Hospitals.init [defaultHospital] none false true
          (fun _ _ => 0)).get_closest_hospitals_idx (0, 0) 3
        = Except.ok idxs ∧
      (∀ i ∈ idxs, i < ([defaultHospital] : List Hospital).length) ∧
      (Hospitals.init [defaultHospital] none false true
          (fun _ _ => 0)).get_closest_hospitals (0, 0) 3
        = Except.ok (idxs.map (fun i =>
            ([defaultHospital] : List Hospital).getD i defaultHospital)) :=
  ⟨by simp,
    claim6_idx_positions_match_members [defaultHospital] none false
      (fun _ _ => 0) (0, 0) 3 (by simp)⟩

end JUNE
